import Mathlib

/-!
Verification of the Telegram login-bot backend: a shallow embedding of the two
source files (the auth service and the bot service) and theorems settling the
frozen claims about the token lifecycle, session refresh, and error handling.

The relational store is modelled as an explicit state (lists of rows); each
SQL statement of the source becomes a pure function on that state.  External
library calls (SHA-256, HMAC signing, urandom, uuid4) are modelled as function
fields of an environment record: every theorem holds for an arbitrary
instantiation of those fields, in particular the real ones.  Machine-level
concerns (wire encoding, CORS headers) are outside the store model and are
noted where they are dropped.
-/

namespace TgAuth

/-- Python datetime: an instant (seconds since the epoch, read as UTC wall
clock, which is how the store returns TIMESTAMP columns) plus an awareness
flag (whether tzinfo is set).  The source normalizes naive values by
reinterpreting the wall clock as UTC, which keeps the epoch field. -/
structure PyDatetime where
  epoch : Int
  aware : Bool
deriving DecidableEq, Repr

/-- timedelta addition in seconds. -/
def addSeconds (d : PyDatetime) (s : Int) : PyDatetime :=
  { d with epoch := d.epoch + s }

/-- expires_at.replace(tzinfo=timezone.utc): reinterpret a naive wall clock
as UTC; the instant (epoch field) is unchanged. -/
def normalizeUtc (d : PyDatetime) : PyDatetime :=
  { d with aware := true }

/-- Python truthiness of an optional string: None and the empty string are
falsy, everything else truthy. -/
def truthy : Option String → Bool
  | none => false
  | some s => !(s == "")

/-- Row of telegram_auth_tokens. -/
structure AuthTokenRow where
  token_hash : String
  telegram_id : Option String
  telegram_username : Option String
  telegram_first_name : Option String
  telegram_last_name : Option String
  telegram_photo_url : Option String
  created_at : PyDatetime
  expires_at : PyDatetime
  used : Bool
deriving DecidableEq, Repr

/-- Row of users (the columns the source reads or writes). -/
structure UserRow where
  id : Nat
  email : Option String
  name : Option String
  avatar_url : Option String
  telegram_id : Option String
  email_verified : Bool
  password_hash : String
  created_at : PyDatetime
  updated_at : PyDatetime
  last_login_at : PyDatetime
deriving DecidableEq, Repr

/-- Row of refresh_tokens. -/
structure RefreshTokenRow where
  user_id : Nat
  token_hash : String
  expires_at : PyDatetime
deriving DecidableEq, Repr

/-- The relational store: the three tables plus the sequence feeding
users.id (SERIAL). -/
structure Db where
  auth_tokens : List AuthTokenRow
  users : List UserRow
  refresh_tokens : List RefreshTokenRow
  next_user_id : Nat
deriving DecidableEq, Repr

/-- Environment and external collaborators: configuration values read from
the process environment (empty string models an unset variable, matching the
falsy check in get_env) and the externally supplied primitives: the SHA-256
hex digest, the base64url pieces of a PyJWT compact serialization, the OS
random-byte source and uuid4.  Theorems quantify over this record, so they
hold for the real primitives. -/
structure Env where
  sha256hex : String → String
  jwt_secret : String
  payloadB64 : Nat → Int → Int → String
  sigB64 : String → String → String
  urandom : Nat → List Nat
  uuid4 : String
  telegram_bot_token : String
  default_chat_id : String

/-- JSON-ish value appearing in a response body. -/
structure UserOut where
  id : Nat
  email : Option String
  name : Option String
  avatar_url : Option String
  telegram_id : Option String
deriving DecidableEq, Repr

/-- The dict create_or_update_user returns (RETURNING clause columns). -/
def userOut (u : UserRow) : UserOut :=
  { id := u.id, email := u.email, name := u.name,
    avatar_url := u.avatar_url, telegram_id := u.telegram_id }

inductive JVal where
  | str : String → JVal
  | int : Int → JVal
  | bool : Bool → JVal
  | null : JVal
  | user : UserOut → JVal
deriving DecidableEq, Repr

/-- HTTP response: status code and JSON body as an association list.
CORS headers are constant strings and are outside the model. -/
structure Response where
  statusCode : Nat
  body : List (String × JVal)
deriving DecidableEq, Repr

def cors_response (status : Nat) (body : List (String × JVal)) : Response :=
  { statusCode := status, body := body }

def options_response : Response :=
  { statusCode := 204, body := [] }

/-- get_env: raises ValueError when the variable is unset or empty. -/
def get_env (value : String) : Except String String :=
  if value == "" then Except.error "Missing environment variable" else Except.ok value

/-- hash_token: hashlib.sha256(token.encode()).hexdigest(). -/
def hash_token (env : Env) (token : String) : String :=
  env.sha256hex token

def b64Chars : List Char :=
  "ABCDEFGHIJKLMNOPQRSTUVWXYZabcdefghijklmnopqrstuvwxyz0123456789-_".toList

def b64Char (n : Nat) : Char :=
  b64Chars.getD (n % 64) 'A'

/-- base64.urlsafe_b64encode with the padding stripped, as performed by
secrets.token_urlsafe over the urandom bytes. -/
def base64urlEncode : List Nat → List Char
  | [] => []
  | [a] => [b64Char (a / 4), b64Char (a % 4 * 16)]
  | [a, b] => [b64Char (a / 4), b64Char (a % 4 * 16 + b / 16), b64Char (b % 16 * 4)]
  | a :: b :: c :: rest =>
      b64Char (a / 4) :: b64Char (a % 4 * 16 + b / 16) ::
      b64Char (b % 16 * 4 + c / 64) :: b64Char (c % 64) :: base64urlEncode rest

/-- generate_token: secrets.token_urlsafe(length). -/
def generate_token (env : Env) (length : Nat := 32) : String :=
  String.mk (base64urlEncode (env.urandom length))

/-- base64url of the fixed PyJWT HS256 header JSON. -/
def jwtHeaderB64 : String := "eyJhbGciOiJIUzI1NiIsInR5cCI6IkpXVCJ9"

/-- create_jwt: jwt.encode of the user_id/exp/iat payload with HS256; the
compact serialization is header.payload.signature where the payload and
signature segments come from the environment primitives. -/
def create_jwt (env : Env) (now : PyDatetime) (user_id : Nat) (secret : String)
    (expires_in : Int := 900) : String :=
  let signingInput :=
    jwtHeaderB64 ++ "." ++ env.payloadB64 user_id (now.epoch + expires_in) now.epoch
  signingInput ++ "." ++ env.sigB64 secret signingInput

/-- get_auth_token: SELECT ... FROM telegram_auth_tokens WHERE token_hash = %s.
The UNIQUE constraint on token_hash means at most one row matches. -/
def get_auth_token (env : Env) (db : Db) (token : String) : Option AuthTokenRow :=
  let token_hash := hash_token env token
  db.auth_tokens.find? (fun r => r.token_hash == token_hash)

/-- One row under the conditional UPDATE of mark_token_used. -/
def markRow (token_hash : String) (r : AuthTokenRow) : AuthTokenRow :=
  if r.token_hash == token_hash && !r.used then { r with used := true } else r

/-- mark_token_used: UPDATE ... SET used = TRUE WHERE token_hash = %s AND
used = FALSE RETURNING id; the Bool is whether any row was affected. -/
def mark_token_used (env : Env) (db : Db) (token : String) : Bool × Db :=
  let token_hash := hash_token env token
  (db.auth_tokens.any (fun r => r.token_hash == token_hash && !r.used),
   { db with auth_tokens := db.auth_tokens.map (markRow token_hash) })

/-- cleanup_expired_tokens: DELETE ... WHERE expires_at < NOW() OR
(used = TRUE AND created_at < NOW() - INTERVAL 1 hour). -/
def cleanup_expired_tokens (now : PyDatetime) (db : Db) : Db :=
  { db with auth_tokens := db.auth_tokens.filter (fun r => !(r.expires_at.epoch < now.epoch || (r.used && r.created_at.epoch < now.epoch - 3600))) }

/-- find_user_by_telegram_id: SELECT ... FROM users WHERE telegram_id = %s. -/
def find_user_by_telegram_id (db : Db) (telegram_id : String) : Option UserRow :=
  db.users.find? (fun u => u.telegram_id == some telegram_id)

/-- COALESCE of the SQL UPDATE. -/
def coalesce {α : Type} : Option α → Option α → Option α
  | some a, _ => some a
  | none, b => b

/-- Display-name computation of create_or_update_user; Python truthiness
governs which parts join, and the result is never None. -/
def display_name_of (username first_name last_name : Option String)
    (telegram_id : String) : String :=
  let name_parts :=
    (if truthy first_name then [first_name.getD ""] else []) ++
    (if truthy last_name then [last_name.getD ""] else [])
  if !name_parts.isEmpty then String.intercalate " " name_parts
  else if truthy username then username.getD ""
  else "User " ++ telegram_id

/-- One row under the SET clause of the users UPDATE. -/
def updateUserRow (display_name : String) (photo_url : Option String)
    (now : PyDatetime) (telegram_id : String) (v : UserRow) : UserRow :=
  if v.telegram_id == some telegram_id then
    { v with name := coalesce (some display_name) v.name,
             avatar_url := coalesce photo_url v.avatar_url,
             last_login_at := now, updated_at := now }
  else v

/-- create_or_update_user: SELECT then either the coalescing UPDATE or the
INSERT, RETURNING the five-column dict. -/
def create_or_update_user (_env : Env) (now : PyDatetime) (db : Db)
    (telegram_id : String) (username first_name last_name photo_url : Option String) :
    UserOut × Db :=
  let display_name := display_name_of username first_name last_name telegram_id
  match find_user_by_telegram_id db telegram_id with
  | some existing =>
      let updated := updateUserRow display_name photo_url now telegram_id existing
      (userOut updated,
       { db with users := db.users.map (updateUserRow display_name photo_url now telegram_id) })
  | none =>
      let newUser : UserRow :=
        { id := db.next_user_id, email := none, name := some display_name,
          avatar_url := photo_url, telegram_id := some telegram_id,
          email_verified := true, password_hash := "",
          created_at := now, updated_at := now, last_login_at := now }
      (userOut newUser,
       { db with users := db.users ++ [newUser], next_user_id := db.next_user_id + 1 })

/-- save_refresh_token: INSERT INTO refresh_tokens. -/
def save_refresh_token (db : Db) (user_id : Nat) (token_hash : String)
    (expires_at : PyDatetime) : Db :=
  { db with refresh_tokens := db.refresh_tokens ++ [⟨user_id, token_hash, expires_at⟩] }

/-- find_refresh_token: SELECT ... WHERE token_hash = %s AND expires_at > NOW(). -/
def find_refresh_token (now : PyDatetime) (db : Db) (token_hash : String) :
    Option RefreshTokenRow :=
  db.refresh_tokens.find? (fun r => r.token_hash == token_hash && now.epoch < r.expires_at.epoch)

/-- delete_refresh_token: DELETE ... WHERE token_hash = %s. -/
def delete_refresh_token (db : Db) (token_hash : String) : Db :=
  { db with refresh_tokens := db.refresh_tokens.filter (fun r => !(r.token_hash == token_hash)) }

/-- get_user_by_id: SELECT ... FROM users WHERE id = %s. -/
def get_user_by_id (db : Db) (user_id : Nat) : Option UserRow :=
  db.users.find? (fun u => u.id == user_id)

/-- cleanup_expired_refresh_tokens: DELETE ... WHERE expires_at < NOW(). -/
def cleanup_expired_refresh_tokens (now : PyDatetime) (db : Db) : Db :=
  { db with refresh_tokens := db.refresh_tokens.filter (fun r => !(r.expires_at.epoch < now.epoch)) }

/-- The tail of handle_callback after the initial token read: validity
checks against the row as read, then user upsert, the conditional mark-used
whose Bool result the source discards, and session minting.  An Except
error models a propagating ValueError (missing environment variable). -/
def callback_after_read (env : Env) (now : PyDatetime) (token : String)
    (token_data : AuthTokenRow) (db : Db) : Except String (Response × Db) :=
  let expires_at := token_data.expires_at
  let expires_at := if expires_at.aware then expires_at else normalizeUtc expires_at
  if expires_at.epoch < now.epoch then
    Except.ok (cors_response 410 [("error", JVal.str "Token expired")], db)
  else if token_data.used then
    Except.ok (cors_response 410 [("error", JVal.str "Token already used")], db)
  else if !(truthy token_data.telegram_id) then
    Except.ok (cors_response 400 [("error", JVal.str "Token not authenticated")], db)
  else
    match get_env env.jwt_secret with
    | Except.error e => Except.error e
    | Except.ok jwt_secret =>
      if jwt_secret.length < 32 then
        Except.ok (cors_response 500 [("error", JVal.str "Server configuration error")], db)
      else
        let userDb := create_or_update_user env now db (token_data.telegram_id.getD "")
          token_data.telegram_username token_data.telegram_first_name
          token_data.telegram_last_name token_data.telegram_photo_url
        let user := userDb.1
        let markResult := mark_token_used env userDb.2 token
        let access_token := create_jwt env now user.id jwt_secret
        let refresh_token := generate_token env 48
        let refresh_token_hash := hash_token env refresh_token
        let refresh_expires := addSeconds now 2592000
        let dbFinal := save_refresh_token markResult.2 user.id refresh_token_hash refresh_expires
        Except.ok (cors_response 200
          [("access_token", JVal.str access_token),
           ("refresh_token", JVal.str refresh_token),
           ("expires_in", JVal.int 900),
           ("user", JVal.user user)], dbFinal)

/-- handle_callback: POST ?action=callback. -/
def handle_callback (env : Env) (now : PyDatetime) (db : Db)
    (tokenField : Option String) : Except String (Response × Db) :=
  if !(truthy tokenField) then
    Except.ok (cors_response 400 [("error", JVal.str "Missing token")], db)
  else
    let token := tokenField.getD ""
    match get_auth_token env db token with
    | none => Except.ok (cors_response 404 [("error", JVal.str "Token not found")], db)
    | some token_data => callback_after_read env now token token_data db

/-- handle_refresh: POST ?action=refresh.  Note: no length validation on the
signing secret on this path. -/
def handle_refresh (env : Env) (now : PyDatetime) (db : Db)
    (refreshField : Option String) : Except String (Response × Db) :=
  if !(truthy refreshField) then
    Except.ok (cors_response 400 [("error", JVal.str "Missing refresh_token")], db)
  else
    match get_env env.jwt_secret with
    | Except.error e => Except.error e
    | Except.ok jwt_secret =>
      let token_hash := hash_token env (refreshField.getD "")
      match find_refresh_token now db token_hash with
      | none =>
          Except.ok (cors_response 401 [("error", JVal.str "Invalid or expired refresh token")], db)
      | some token_data =>
        match get_user_by_id db token_data.user_id with
        | none => Except.ok (cors_response 401 [("error", JVal.str "User not found")], db)
        | some user =>
          let access_token := create_jwt env now user.id jwt_secret
          Except.ok (cors_response 200
            [("access_token", JVal.str access_token),
             ("expires_in", JVal.int 900),
             ("user", JVal.user (userOut user))], db)

/-- handle_logout: POST ?action=logout (delete if a token was given,
always succeed). -/
def handle_logout (env : Env) (db : Db) (refreshField : Option String) : Response × Db :=
  let db2 :=
    if truthy refreshField then delete_refresh_token db (hash_token env (refreshField.getD ""))
    else db
  (cors_response 200 [("success", JVal.bool true)], db2)

/-- The request body fields the auth service reads. -/
structure AuthBody where
  token : Option String := none
  refresh_token : Option String := none
deriving DecidableEq, Repr

/-- handler of the auth service: OPTIONS preflight, the per-request cleanup
sweeps, routing, and the exception net.  A ValueError yields the generic 500
and the transaction is not committed, so the pre-request state is kept
(psycopg2 close without commit rolls back).  Table creation and JSON parsing
are outside the store model. -/
def auth_handler (env : Env) (now : PyDatetime) (db : Db)
    (method action : String) (body : AuthBody) : Response × Db :=
  if method == "OPTIONS" then (options_response, db)
  else
    let db1 := cleanup_expired_refresh_tokens now (cleanup_expired_tokens now db)
    let routed :=
      if action == "callback" && method == "POST" then handle_callback env now db1 body.token
      else if action == "refresh" && method == "POST" then handle_refresh env now db1 body.refresh_token
      else if action == "logout" && method == "POST" then Except.ok (handle_logout env db1 body.refresh_token)
      else Except.ok (cors_response 400 [("error", JVal.str ("Unknown action: " ++ action))], db1)
    match routed with
    | Except.ok r => r
    | Except.error _ =>
        (cors_response 500 [("error", JVal.str "Server configuration error")], db)

/-! Bot service (telegram-bot/index.py). -/

/-- save_auth_token: mint a uuid4 plaintext, store only its SHA-256 hex
digest with the Telegram profile fields, a NULL photo URL, and a five-minute
expiry; return the plaintext. -/
def save_auth_token (env : Env) (now : PyDatetime) (db : Db) (telegram_id : String)
    (username first_name last_name : Option String) : String × Db :=
  let token := env.uuid4
  let token_hash := env.sha256hex token
  let row : AuthTokenRow :=
    { token_hash := token_hash, telegram_id := some telegram_id,
      telegram_username := username, telegram_first_name := first_name,
      telegram_last_name := last_name, telegram_photo_url := none,
      created_at := now, expires_at := addSeconds now 300, used := false }
  (token, { db with auth_tokens := db.auth_tokens ++ [row] })

/-- The from-field of a Telegram message. -/
structure TgUser where
  id : Option Int := none
  username : Option String := none
  first_name : Option String := none
  last_name : Option String := none
deriving DecidableEq, Repr

/-- handle_web_auth: the /start web_auth path; builds the token bound to the
sender and returns the plaintext (the message send to Telegram is outside the
store model). -/
def handle_web_auth (env : Env) (now : PyDatetime) (db : Db) (user : TgUser) : String × Db :=
  let telegram_id := match user.id with | some n => toString n | none => ""
  save_auth_token env now db telegram_id user.username user.first_name user.last_name

/-- Python str.strip(): drop whitespace from both ends. -/
def pyStrip (s : String) : String :=
  String.mk (((s.toList.dropWhile Char.isWhitespace).reverse.dropWhile Char.isWhitespace).reverse)

/-- Outcome of a call into the messaging gateway (telebot): success with a
message id, an ApiTelegramException carrying code and description, or any
other exception carrying its str(e) text. -/
inductive GatewayResult where
  | sent : Int → GatewayResult
  | apiError : Int → String → GatewayResult
  | exn : String → GatewayResult
deriving DecidableEq, Repr

/-- handle_send: POST ?action=send.  The local validations, then the gateway
call; ApiTelegramException maps to 400 with the gateway description, any
other exception maps to 500 with str(e) as the error field.  get_bot raising
on a missing bot token lands in the generic except branch. -/
def handle_send (env : Env) (outcome : GatewayResult)
    (textField chatField : Option String) : Response :=
  let text := pyStrip (textField.getD "")
  let chat_id := if truthy chatField then chatField.getD "" else env.default_chat_id
  if text == "" then cors_response 400 [("error", JVal.str "text is required")]
  else if chat_id == "" then cors_response 400 [("error", JVal.str "chat_id is required")]
  else if 4096 < text.length then
    cors_response 400 [("error", JVal.str "Message too long (max 4096 characters)")]
  else
    match (if env.telegram_bot_token == "" then
             GatewayResult.exn "TELEGRAM_BOT_TOKEN not configured"
           else outcome) with
    | GatewayResult.sent mid =>
        cors_response 200 [("success", JVal.bool true), ("message_id", JVal.int mid)]
    | GatewayResult.apiError code desc =>
        cors_response 400 [("error", JVal.str desc), ("error_code", JVal.int code)]
    | GatewayResult.exn m => cors_response 500 [("error", JVal.str m)]

/-- handle_send_photo: POST ?action=send-photo, same exception mapping. -/
def handle_send_photo (env : Env) (outcome : GatewayResult)
    (photoField chatField : Option String) : Response :=
  let photo_url := pyStrip (photoField.getD "")
  let chat_id := if truthy chatField then chatField.getD "" else env.default_chat_id
  if photo_url == "" then cors_response 400 [("error", JVal.str "photo_url is required")]
  else if chat_id == "" then cors_response 400 [("error", JVal.str "chat_id is required")]
  else
    match (if env.telegram_bot_token == "" then
             GatewayResult.exn "TELEGRAM_BOT_TOKEN not configured"
           else outcome) with
    | GatewayResult.sent mid =>
        cors_response 200 [("success", JVal.bool true), ("message_id", JVal.int mid)]
    | GatewayResult.apiError code desc =>
        cors_response 400 [("error", JVal.str desc), ("error_code", JVal.int code)]
    | GatewayResult.exn m => cors_response 500 [("error", JVal.str m)]

/-- handle_test: POST ?action=test, same exception mapping; the message text
(a fixed template with the current time) is sent to the gateway and not
returned, so it is outside the response model. -/
def handle_test (env : Env) (outcome : GatewayResult) (chatField : Option String) : Response :=
  let chat_id := if truthy chatField then chatField.getD "" else env.default_chat_id
  if chat_id == "" then cors_response 400 [("error", JVal.str "chat_id is required")]
  else
    match (if env.telegram_bot_token == "" then
             GatewayResult.exn "TELEGRAM_BOT_TOKEN not configured"
           else outcome) with
    | GatewayResult.sent mid =>
        cors_response 200 [("success", JVal.bool true),
          ("message", JVal.str "Test message sent"), ("message_id", JVal.int mid)]
    | GatewayResult.apiError code desc =>
        cors_response 400 [("error", JVal.str desc), ("error_code", JVal.int code)]
    | GatewayResult.exn m => cors_response 500 [("error", JVal.str m)]

/-- Modelled from the spec: the web-login endpoint that creates an unbound
one-time token (spec 4.2 Create with the website as initiator) is not under
src; per the spec it allocates a plaintext via the token codec and stores
only its fingerprint with a TTL-bounded expiry, used false, and no platform
identity or profile fields attached. -/
def create_unbound_token (env : Env) (now : PyDatetime) (ttlSeconds : Int) (db : Db) :
    String × Db :=
  let token := generate_token env 32
  let row : AuthTokenRow :=
    { token_hash := hash_token env token, telegram_id := none,
      telegram_username := none, telegram_first_name := none,
      telegram_last_name := none, telegram_photo_url := none,
      created_at := now, expires_at := addSeconds now ttlSeconds, used := false }
  (token, { db with auth_tokens := db.auth_tokens ++ [row] })

/-- Two redemptions of the same plaintext interleaved so that both initial
reads happen before either write phase: read1, read2, write1, write2.  Each
write phase is the source after its own read; the store serializes the two
write phases (read committed), so the second conditional update affects zero
rows. -/
def race_two_redemptions (env : Env) (now : PyDatetime) (db : Db) (t : String) :
    Option (Response × Response × Db) :=
  match get_auth_token env db t with
  | none => none
  | some td =>
    match callback_after_read env now t td db with
    | Except.error _ => none
    | Except.ok (r1, db1) =>
      match callback_after_read env now t td db1 with
      | Except.error _ => none
      | Except.ok (r2, db2) => some (r1, r2, db2)

/-- The row inserted by save_auth_token, named for use in proofs. -/
def webAuthRow (env : Env) (now : PyDatetime) (tid : String)
    (un fn ln : Option String) : AuthTokenRow :=
  { token_hash := env.sha256hex env.uuid4, telegram_id := some tid,
    telegram_username := un, telegram_first_name := fn, telegram_last_name := ln,
    telegram_photo_url := none, created_at := now, expires_at := addSeconds now 300,
    used := false }

/-! Concrete instances used by witnesses and counterexamples.  The external
primitives get arbitrary concrete values; the theorems they instantiate are
quantified over the environment, so nothing depends on these choices. -/

def goodSecret : String := "0123456789abcdef0123456789abcdef"

def demoEnv (secret : String) : Env :=
  { sha256hex := fun s => "sha-" ++ s,
    jwt_secret := secret,
    payloadB64 := fun _ _ _ => "UEFZ",
    sigB64 := fun _ _ => "U0lH",
    urandom := fun n => List.replicate n 7,
    uuid4 := "uuid-demo-0001",
    telegram_bot_token := "123:ABC",
    default_chat_id := "42" }

def tNow : PyDatetime := { epoch := 1000000, aware := true }

def demoTokenRow : AuthTokenRow :=
  { token_hash := "sha-tok", telegram_id := some "555",
    telegram_username := some "alice", telegram_first_name := some "Alice",
    telegram_last_name := none, telegram_photo_url := none,
    created_at := { epoch := 999900, aware := false },
    expires_at := { epoch := 1000200, aware := false }, used := false }

def demoDb : Db :=
  { auth_tokens := [demoTokenRow], users := [], refresh_tokens := [], next_user_id := 1 }

def emptyDb : Db :=
  { auth_tokens := [], users := [], refresh_tokens := [], next_user_id := 1 }

def expiredUsedRow : AuthTokenRow :=
  { token_hash := "sha-exp", telegram_id := some "777",
    telegram_username := none, telegram_first_name := some "Bob",
    telegram_last_name := none, telegram_photo_url := none,
    created_at := { epoch := 999000, aware := false },
    expires_at := { epoch := 999500, aware := false }, used := true }

def expiredDb : Db :=
  { auth_tokens := [expiredUsedRow], users := [], refresh_tokens := [], next_user_id := 1 }

def demoUser : UserRow :=
  { id := 7, email := none, name := some "Bob", avatar_url := none,
    telegram_id := some "777", email_verified := true, password_hash := "",
    created_at := { epoch := 990000, aware := true },
    updated_at := { epoch := 990000, aware := true },
    last_login_at := { epoch := 990000, aware := true } }

def demoRefreshRow : RefreshTokenRow :=
  { user_id := 7, token_hash := "sha-rt", expires_at := { epoch := 1000500, aware := true } }

def avatarUser : UserRow :=
  { id := 9, email := some "b at example.com", name := some "Old Name",
    avatar_url := some "https-old-avatar", telegram_id := some "888",
    email_verified := true, password_hash := "",
    created_at := { epoch := 980000, aware := true },
    updated_at := { epoch := 980000, aware := true },
    last_login_at := { epoch := 980000, aware := true } }

def avatarDb : Db :=
  { auth_tokens := [], users := [avatarUser], refresh_tokens := [], next_user_id := 10 }

def c10Row : AuthTokenRow :=
  { token_hash := "sha-tok2", telegram_id := some "888", telegram_username := some "bob",
    telegram_first_name := some "Bobby", telegram_last_name := none,
    telegram_photo_url := none,
    created_at := { epoch := 999900, aware := false },
    expires_at := { epoch := 1000200, aware := false }, used := false }

def c10Result : Response × Db :=
  match callback_after_read (demoEnv goodSecret) tNow "tok2" c10Row avatarDb with
  | Except.ok rd => rd
  | Except.error _ => (cors_response 0 [], avatarDb)

def orphanRefreshDb : Db :=
  { auth_tokens := [], users := [], refresh_tokens := [demoRefreshRow], next_user_id := 1 }

def liveRefreshDb : Db :=
  { auth_tokens := [], users := [demoUser], refresh_tokens := [demoRefreshRow], next_user_id := 8 }

/-! Helper lemmas. -/

/-- find? returns the unique element satisfying the predicate. -/
theorem find?_unique {α : Type} {p : α → Bool} {a : α} :
    ∀ {l : List α}, a ∈ l → p a = true → (∀ b ∈ l, p b = true → b = a) →
      l.find? p = some a := by
  intro l
  induction l with
  | nil => intro h; cases h
  | cons x xs ih =>
    intro hmem hpa huniq
    by_cases hx : p x = true
    · have hxa : x = a := huniq x (List.mem_cons_self x xs) hx
      subst hxa
      simp [List.find?_cons_of_pos, hx]
    · have hmem2 : a ∈ xs := by
        rcases List.mem_cons.mp hmem with h | h
        · subst h; exact absurd hpa hx
        · exact h
      rw [List.find?_cons_of_neg _ hx]
      exact ih hmem2 hpa (fun b hb hpb => huniq b (List.mem_cons_of_mem _ hb) hpb)

theorem normalized_epoch (d : PyDatetime) :
    (if d.aware then d else normalizeUtc d).epoch = d.epoch := by
  by_cases h : d.aware <;> simp [h, normalizeUtc]

theorem markRow_token_hash (h : String) (r : AuthTokenRow) :
    (markRow h r).token_hash = r.token_hash := by
  unfold markRow; split <;> rfl

theorem create_or_update_user_auth_tokens (env : Env) (now : PyDatetime) (db : Db)
    (tid : String) (un fn ln ph : Option String) :
    (create_or_update_user env now db tid un fn ln ph).2.auth_tokens = db.auth_tokens := by
  unfold create_or_update_user
  split <;> rfl

theorem create_or_update_user_refresh_tokens (env : Env) (now : PyDatetime) (db : Db)
    (tid : String) (un fn ln ph : Option String) :
    (create_or_update_user env now db tid un fn ln ph).2.refresh_tokens = db.refresh_tokens := by
  unfold create_or_update_user
  split <;> rfl

theorem create_or_update_user_telegram_id (env : Env) (now : PyDatetime) (db : Db)
    (tid : String) (un fn ln ph : Option String) :
    (create_or_update_user env now db tid un fn ln ph).1.telegram_id = some tid := by
  unfold create_or_update_user
  cases hfind : find_user_by_telegram_id db tid with
  | none => rfl
  | some existing =>
    have hp := List.find?_some hfind
    have : existing.telegram_id = some tid := by simpa using hp
    simp [userOut, updateUserRow, this]

theorem updateUserRow_avatar_none (dn : String) (now : PyDatetime) (tid : String)
    (v : UserRow) : (updateUserRow dn none now tid v).avatar_url = v.avatar_url := by
  unfold updateUserRow
  split <;> rfl

/-- The routing step of the auth handler for POST action=callback. -/
theorem auth_handler_callback (env : Env) (now : PyDatetime) (db : Db) (body : AuthBody) :
    auth_handler env now db "POST" "callback" body =
      (match handle_callback env now
          (cleanup_expired_refresh_tokens now (cleanup_expired_tokens now db)) body.token with
       | Except.ok r => r
       | Except.error _ =>
           (cors_response 500 [("error", JVal.str "Server configuration error")], db)) := by
  rfl

/-- The routing step of the auth handler for POST action=refresh. -/
theorem auth_handler_refresh (env : Env) (now : PyDatetime) (db : Db) (body : AuthBody) :
    auth_handler env now db "POST" "refresh" body =
      (match handle_refresh env now
          (cleanup_expired_refresh_tokens now (cleanup_expired_tokens now db)) body.refresh_token with
       | Except.ok r => r
       | Except.error _ =>
           (cors_response 500 [("error", JVal.str "Server configuration error")], db)) := by
  rfl

theorem handle_callback_found (env : Env) (now : PyDatetime) (db : Db) (t : String)
    (R : AuthTokenRow) (ht : truthy (some t) = true)
    (hfind : get_auth_token env db t = some R) :
    handle_callback env now db (some t) = callback_after_read env now t R db := by
  unfold handle_callback
  rw [ht]
  simp [hfind]

theorem callback_after_read_success (env : Env) (now : PyDatetime) (t : String)
    (R : AuthTokenRow) (db : Db)
    (hexp : ¬(R.expires_at.epoch < now.epoch))
    (hused : R.used = false)
    (hbound : truthy R.telegram_id = true)
    (hsec : env.jwt_secret ≠ "")
    (hlen : ¬(env.jwt_secret.length < 32)) :
    callback_after_read env now t R db =
      (let ud := create_or_update_user env now db (R.telegram_id.getD "")
                   R.telegram_username R.telegram_first_name R.telegram_last_name
                   R.telegram_photo_url
       let rt := generate_token env 48
       Except.ok (cors_response 200
         [("access_token", JVal.str (create_jwt env now ud.1.id env.jwt_secret)),
          ("refresh_token", JVal.str rt),
          ("expires_in", JVal.int 900),
          ("user", JVal.user ud.1)],
        save_refresh_token (mark_token_used env ud.2 t).2 ud.1.id
          (hash_token env rt) (addSeconds now 2592000))) := by
  have hbeq : (env.jwt_secret == "") = false := beq_eq_false_iff_ne.mpr hsec
  simp only [callback_after_read, get_env, normalized_epoch, hbeq, hused, hbound,
    Bool.not_true, Bool.false_eq_true, if_false, if_neg hexp, if_neg hlen]

theorem cleanup_keeps_row (now : PyDatetime) (R : AuthTokenRow)
    (hexp : ¬(R.expires_at.epoch < now.epoch))
    (hgrace : R.used = false ∨ ¬(R.created_at.epoch < now.epoch - 3600)) :
    (!(R.expires_at.epoch < now.epoch || (R.used && R.created_at.epoch < now.epoch - 3600))) = true := by
  rcases hgrace with h | h <;> simp [hexp, h]

theorem cleaned_auth_tokens (now : PyDatetime) (db : Db) :
    (cleanup_expired_refresh_tokens now (cleanup_expired_tokens now db)).auth_tokens =
      db.auth_tokens.filter (fun r => !(r.expires_at.epoch < now.epoch || (r.used && r.created_at.epoch < now.epoch - 3600))) := rfl

theorem cleaned_users (now : PyDatetime) (db : Db) :
    (cleanup_expired_refresh_tokens now (cleanup_expired_tokens now db)).users = db.users := rfl

theorem cleaned_refresh_tokens (now : PyDatetime) (db : Db) :
    (cleanup_expired_refresh_tokens now (cleanup_expired_tokens now db)).refresh_tokens =
      db.refresh_tokens.filter (fun r => !(r.expires_at.epoch < now.epoch)) := rfl

theorem mark_token_used_auth_tokens (env : Env) (db : Db) (t : String) :
    (mark_token_used env db t).2.auth_tokens = db.auth_tokens.map (markRow (hash_token env t)) := rfl

theorem save_refresh_token_auth_tokens (db : Db) (uid : Nat) (h : String) (e : PyDatetime) :
    (save_refresh_token db uid h e).auth_tokens = db.auth_tokens := rfl

theorem callback_after_read_expired (env : Env) (now : PyDatetime) (t : String)
    (R : AuthTokenRow) (db : Db) (hexp : R.expires_at.epoch < now.epoch) :
    callback_after_read env now t R db =
      Except.ok (cors_response 410 [("error", JVal.str "Token expired")], db) := by
  simp only [callback_after_read, normalized_epoch, if_pos hexp]

theorem callback_after_read_used (env : Env) (now : PyDatetime) (t : String)
    (R : AuthTokenRow) (db : Db)
    (hexp : ¬(R.expires_at.epoch < now.epoch)) (hused : R.used = true) :
    callback_after_read env now t R db =
      Except.ok (cors_response 410 [("error", JVal.str "Token already used")], db) := by
  simp only [callback_after_read, normalized_epoch, if_neg hexp, hused, if_true]

/-- The token lookup still finds the unique matching row after the
per-request cleanup sweeps, provided the row is neither expired nor swept
by the used-plus-grace clause. -/
theorem cleaned_get_auth_token (env : Env) (now : PyDatetime) (db : Db) (t : String)
    (R : AuthTokenRow)
    (hmem : R ∈ db.auth_tokens)
    (hhash : R.token_hash = hash_token env t)
    (huniq : ∀ r ∈ db.auth_tokens, r.token_hash = hash_token env t → r = R)
    (hexp : ¬(R.expires_at.epoch < now.epoch))
    (hgrace : R.used = false ∨ ¬(R.created_at.epoch < now.epoch - 3600)) :
    get_auth_token env (cleanup_expired_refresh_tokens now (cleanup_expired_tokens now db)) t =
      some R := by
  have hkeep := cleanup_keeps_row now R hexp hgrace
  have hmemc : R ∈ (cleanup_expired_refresh_tokens now (cleanup_expired_tokens now db)).auth_tokens := by
    rw [cleaned_auth_tokens]
    exact List.mem_filter.mpr ⟨hmem, hkeep⟩
  have huniqc : ∀ r ∈ (cleanup_expired_refresh_tokens now (cleanup_expired_tokens now db)).auth_tokens,
      r.token_hash = hash_token env t → r = R := by
    rw [cleaned_auth_tokens]
    intro r hr hh
    exact huniq r (List.mem_filter.mp hr).1 hh
  unfold get_auth_token
  exact find?_unique hmemc (by simp [hhash]) (fun b hb hpb => huniqc b hb (by simpa using hpb))

/-- The full callback action on a stored, unexpired, unused, bound token with
a well-configured secret: the response and the exact final state. -/
theorem auth_callback_success (env : Env) (now : PyDatetime) (db : Db) (t : String)
    (R : AuthTokenRow)
    (ht : truthy (some t) = true)
    (hmem : R ∈ db.auth_tokens)
    (hhash : R.token_hash = hash_token env t)
    (huniq : ∀ r ∈ db.auth_tokens, r.token_hash = hash_token env t → r = R)
    (hexp : ¬(R.expires_at.epoch < now.epoch))
    (hused : R.used = false)
    (hbound : truthy R.telegram_id = true)
    (hsec : env.jwt_secret ≠ "")
    (hlen : ¬(env.jwt_secret.length < 32)) :
    auth_handler env now db "POST" "callback" { token := some t, refresh_token := none } =
      (let dbc := cleanup_expired_refresh_tokens now (cleanup_expired_tokens now db)
       let ud := create_or_update_user env now dbc (R.telegram_id.getD "")
                   R.telegram_username R.telegram_first_name R.telegram_last_name
                   R.telegram_photo_url
       let rt := generate_token env 48
       (cors_response 200
         [("access_token", JVal.str (create_jwt env now ud.1.id env.jwt_secret)),
          ("refresh_token", JVal.str rt),
          ("expires_in", JVal.int 900),
          ("user", JVal.user ud.1)],
        save_refresh_token (mark_token_used env ud.2 t).2 ud.1.id
          (hash_token env rt) (addSeconds now 2592000))) := by
  have hfind := cleaned_get_auth_token env now db t R hmem hhash huniq hexp (Or.inl hused)
  rw [auth_handler_callback]
  rw [show ({ token := some t, refresh_token := none } : AuthBody).token = some t from rfl]
  rw [handle_callback_found env now _ t R ht hfind]
  rw [callback_after_read_success env now t R _ hexp hused hbound hsec hlen]

/-- C1: claimed: when N concurrent redemption attempts race on a valid bound
token, exactly one succeeds and every other fails AlreadyUsed 410, because
the conditional update result gates the minting.  In the source the Bool
result of mark_token_used is discarded, so in the read-read-write-write
interleaving both attempts return 200 and two refresh-token rows (two
session pairs) are persisted for the one token: the code contradicts the
claimed at-most-one-session guarantee. -/
theorem c1_race_both_attempts_succeed :
    (race_two_redemptions (demoEnv goodSecret) tNow demoDb "tok").map
        (fun x => (x.1.statusCode, x.2.1.statusCode, x.2.2.refresh_tokens.length)) =
      some (200, 200, 2) := by decide

/-- C2: redeeming the same stored, bound, unexpired plaintext twice
sequentially through the callback action: the first call returns 200 with a
session, the second returns 410 Token already used, and the second call
leaves the users table unchanged, mints nothing and adds no refresh-token
row (its only state effect is the delete-only cleanup sweep).  The httl
hypothesis (expiry at most one hour past creation) holds for every token
the system creates, whose TTL is five minutes. -/
theorem c2_sequential_double_redemption
    (env : Env) (now1 now2 : PyDatetime) (db : Db) (t : String) (R : AuthTokenRow)
    (ht : truthy (some t) = true)
    (hmem : R ∈ db.auth_tokens)
    (hhash : R.token_hash = hash_token env t)
    (huniq : ∀ r ∈ db.auth_tokens, r.token_hash = hash_token env t → r = R)
    (hexp1 : ¬(R.expires_at.epoch < now1.epoch))
    (hexp2 : ¬(R.expires_at.epoch < now2.epoch))
    (httl : R.expires_at.epoch ≤ R.created_at.epoch + 3600)
    (hused : R.used = false)
    (hbound : truthy R.telegram_id = true)
    (hsec : env.jwt_secret ≠ "")
    (hlen : ¬(env.jwt_secret.length < 32)) :
    ∃ a rt u db1,
      auth_handler env now1 db "POST" "callback" { token := some t, refresh_token := none } =
        (cors_response 200 [("access_token", JVal.str a), ("refresh_token", JVal.str rt),
                            ("expires_in", JVal.int 900), ("user", JVal.user u)], db1) ∧
      auth_handler env now2 db1 "POST" "callback" { token := some t, refresh_token := none } =
        (cors_response 410 [("error", JVal.str "Token already used")],
         cleanup_expired_refresh_tokens now2 (cleanup_expired_tokens now2 db1)) ∧
      (cleanup_expired_refresh_tokens now2 (cleanup_expired_tokens now2 db1)).users = db1.users ∧
      (∀ r ∈ (cleanup_expired_refresh_tokens now2 (cleanup_expired_tokens now2 db1)).refresh_tokens,
         r ∈ db1.refresh_tokens) := by
  have hfirst := auth_callback_success env now1 db t R ht hmem hhash huniq hexp1 hused hbound hsec hlen
  simp only [] at hfirst
  refine ⟨_, _, _, _, hfirst, ?_, ?_, ?_⟩
  · -- second call fails 410 with only the cleanup as state change
    set dbc := cleanup_expired_refresh_tokens now1 (cleanup_expired_tokens now1 db) with hdbc
    set U := create_or_update_user env now1 dbc (R.telegram_id.getD "")
      R.telegram_username R.telegram_first_name R.telegram_last_name R.telegram_photo_url with hU
    set db1 := save_refresh_token (mark_token_used env U.2 t).2 U.1.id
      (hash_token env (generate_token env 48)) (addSeconds now1 2592000) with hdb1
    have hdb1tokens : db1.auth_tokens =
        (db.auth_tokens.filter (fun r => !(r.expires_at.epoch < now1.epoch || (r.used && r.created_at.epoch < now1.epoch - 3600)))).map
          (markRow (hash_token env t)) := by
      rw [hdb1, save_refresh_token_auth_tokens, mark_token_used_auth_tokens,
        hU, create_or_update_user_auth_tokens, hdbc, cleaned_auth_tokens]
    have hmark : markRow (hash_token env t) R = { R with used := true } := by
      simp [markRow, hhash, hused]
    have hmem2 : ({ R with used := true } : AuthTokenRow) ∈ db1.auth_tokens := by
      rw [hdb1tokens, ← hmark]
      exact List.mem_map_of_mem _
        (List.mem_filter.mpr ⟨hmem, cleanup_keeps_row now1 R hexp1 (Or.inl hused)⟩)
    have huniq2 : ∀ b ∈ db1.auth_tokens, b.token_hash = hash_token env t →
        b = { R with used := true } := by
      rw [hdb1tokens]
      intro b hb hbh
      obtain ⟨a, ha, rfl⟩ := List.mem_map.mp hb
      have hah : a.token_hash = hash_token env t := by
        rw [← markRow_token_hash (hash_token env t) a]; exact hbh
      have haR : a = R := huniq a (List.mem_filter.mp ha).1 hah
      rw [haR, hmark]
    have hkeep2 : (!(({ R with used := true } : AuthTokenRow).expires_at.epoch < now2.epoch ||
        (({ R with used := true } : AuthTokenRow).used &&
         ({ R with used := true } : AuthTokenRow).created_at.epoch < now2.epoch - 3600))) = true := by
      refine cleanup_keeps_row now2 _ hexp2 (Or.inr ?_)
      show ¬(R.created_at.epoch < now2.epoch - 3600)
      omega
    have hmem2c : ({ R with used := true } : AuthTokenRow) ∈
        (cleanup_expired_refresh_tokens now2 (cleanup_expired_tokens now2 db1)).auth_tokens := by
      rw [cleaned_auth_tokens]
      exact List.mem_filter.mpr ⟨hmem2, hkeep2⟩
    have hfind2 : get_auth_token env
        (cleanup_expired_refresh_tokens now2 (cleanup_expired_tokens now2 db1)) t =
        some { R with used := true } := by
      unfold get_auth_token
      refine find?_unique hmem2c (by simp [hhash]) ?_
      intro b hb hpb
      rw [cleaned_auth_tokens] at hb
      exact huniq2 b (List.mem_filter.mp hb).1 (by simpa using hpb)
    rw [auth_handler_callback]
    rw [show ({ token := some t, refresh_token := none } : AuthBody).token = some t from rfl]
    rw [handle_callback_found env now2 _ t _ ht hfind2]
    rw [callback_after_read_used env now2 t { R with used := true } _ hexp2 rfl]
  · rfl
  · intro r hr
    rw [cleaned_refresh_tokens] at hr
    exact (List.mem_filter.mp hr).1

/-- C2 witness: the theorem instantiated at a concrete store holding one
bound, unexpired, unused token, with a 32-character secret. -/
theorem c2_sequential_double_redemption_witness :
    ∃ a rt u db1,
      auth_handler (demoEnv goodSecret) tNow demoDb "POST" "callback"
          { token := some "tok", refresh_token := none } =
        (cors_response 200 [("access_token", JVal.str a), ("refresh_token", JVal.str rt),
                            ("expires_in", JVal.int 900), ("user", JVal.user u)], db1) ∧
      auth_handler (demoEnv goodSecret) tNow db1 "POST" "callback"
          { token := some "tok", refresh_token := none } =
        (cors_response 410 [("error", JVal.str "Token already used")],
         cleanup_expired_refresh_tokens tNow (cleanup_expired_tokens tNow db1)) ∧
      (cleanup_expired_refresh_tokens tNow (cleanup_expired_tokens tNow db1)).users = db1.users ∧
      (∀ r ∈ (cleanup_expired_refresh_tokens tNow (cleanup_expired_tokens tNow db1)).refresh_tokens,
         r ∈ db1.refresh_tokens) :=
  c2_sequential_double_redemption (demoEnv goodSecret) tNow tNow demoDb "tok" demoTokenRow
    (by decide) (by decide) (by decide) (by decide) (by decide) (by decide) (by decide)
    (by decide) (by decide) (by decide) (by decide)

/-- C6 counterexample: a stored token one expiry step in the past (and even
already used) redeemed through the callback action yields 404 Token not
found, not the claimed 410 Expired: the per-request cleanup sweep deletes
expired rows before the lookup runs. -/
theorem c6_counterexample :
    (auth_handler (demoEnv goodSecret) tNow expiredDb "POST" "callback"
        { token := some "exp", refresh_token := none }).1 =
      cors_response 404 [("error", JVal.str "Token not found")] ∧
    (auth_handler (demoEnv goodSecret) tNow expiredDb "POST" "callback"
        { token := some "exp", refresh_token := none }).1.statusCode ≠ 410 := by decide

/-- C6 amended: a stored token whose expiresAt is strictly before now fails
through the callback action with 404 Token not found, because the
per-request cleanup deletes expired rows before the lookup; the 410 Expired
outcome belongs to the redemption check itself (handle_callback after the
read), which, whenever an expired row is still visible, reports Expired
regardless of the used flag (the timezone-naive stored expiry is normalized
to UTC before the comparison) — an expired-and-used token reports Expired
there, not AlreadyUsed. -/
theorem c6_expired_redemption (env : Env) (now : PyDatetime) (db : Db) (t : String)
    (R : AuthTokenRow)
    (ht : truthy (some t) = true)
    (hmem : R ∈ db.auth_tokens)
    (hhash : R.token_hash = hash_token env t)
    (huniq : ∀ r ∈ db.auth_tokens, r.token_hash = hash_token env t → r = R)
    (hexp : R.expires_at.epoch < now.epoch) :
    auth_handler env now db "POST" "callback" { token := some t, refresh_token := none } =
      (cors_response 404 [("error", JVal.str "Token not found")],
       cleanup_expired_refresh_tokens now (cleanup_expired_tokens now db)) ∧
    (∀ b, callback_after_read env now t { R with used := b } db =
      Except.ok (cors_response 410 [("error", JVal.str "Token expired")], db)) := by
  constructor
  · have hnone : get_auth_token env
        (cleanup_expired_refresh_tokens now (cleanup_expired_tokens now db)) t = none := by
      unfold get_auth_token
      rw [List.find?_eq_none]
      intro a ha hpa
      rw [cleaned_auth_tokens] at ha
      have hmf := List.mem_filter.mp ha
      have haR : a = R := huniq a hmf.1 (by simpa using hpa)
      rw [haR] at hmf
      simp [hexp] at hmf
    rw [auth_handler_callback]
    rw [show ({ token := some t, refresh_token := none } : AuthBody).token = some t from rfl]
    unfold handle_callback
    rw [ht]
    simp [hnone]
  · intro b
    exact callback_after_read_expired env now t { R with used := b } db hexp

/-- C6 witness: the amended theorem at a concrete store holding one expired,
already-used token. -/
theorem c6_expired_redemption_witness :
    (auth_handler (demoEnv goodSecret) tNow expiredDb "POST" "callback"
        { token := some "exp", refresh_token := none } =
      (cors_response 404 [("error", JVal.str "Token not found")],
       cleanup_expired_refresh_tokens tNow (cleanup_expired_tokens tNow expiredDb))) ∧
    (∀ b, callback_after_read (demoEnv goodSecret) tNow "exp" { expiredUsedRow with used := b } expiredDb =
      Except.ok (cors_response 410 [("error", JVal.str "Token expired")], expiredDb)) :=
  c6_expired_redemption (demoEnv goodSecret) tNow expiredDb "exp" expiredUsedRow
    (by decide) (by decide) (by decide) (by decide) (by decide)

theorem base64urlEncode_ne_nil : ∀ {l : List Nat}, l ≠ [] → base64urlEncode l ≠ [] := by
  intro l h
  match l with
  | [] => exact absurd rfl h
  | [a] => simp [base64urlEncode]
  | [a, b] => simp [base64urlEncode]
  | a :: b :: c :: rest => simp [base64urlEncode]

theorem generate_token_length_pos (env : Env) (n : Nat) (h : env.urandom n ≠ []) :
    0 < (generate_token env n).length := by
  show 0 < (base64urlEncode (env.urandom n)).length
  exact List.length_pos.mpr (base64urlEncode_ne_nil h)

theorem create_jwt_length_pos (env : Env) (now : PyDatetime) (uid : Nat) (secret : String)
    (ei : Int) : 0 < (create_jwt env now uid secret ei).length := by
  unfold create_jwt
  have h36 : jwtHeaderB64.length = 36 := by decide
  simp only [String.length_append]
  omega

/-- C7 counterexample: a one-time token created unbound (the spec scenario)
and redeemed immediately with the correct plaintext is rejected 400 Token
not authenticated by the callback action, not granted the claimed 200
session. -/
theorem c7_counterexample :
    (auth_handler (demoEnv goodSecret) tNow
        (create_unbound_token (demoEnv goodSecret) tNow 300 emptyDb).2 "POST" "callback"
        { token := some (create_unbound_token (demoEnv goodSecret) tNow 300 emptyDb).1,
          refresh_token := none }).1 =
      cors_response 400 [("error", JVal.str "Token not authenticated")] ∧
    (auth_handler (demoEnv goodSecret) tNow
        (create_unbound_token (demoEnv goodSecret) tNow 300 emptyDb).2 "POST" "callback"
        { token := some (create_unbound_token (demoEnv goodSecret) tNow 300 emptyDb).1,
          refresh_token := none }).1.statusCode ≠ 200 := by decide

/-- C7 amended: a token created bound (the only creation path in the source:
the bot webhook, five-minute TTL) and redeemed immediately with the correct
plaintext returns 200 with a non-empty access_token, a non-empty
refresh_token, expires_in 900, and a user object carrying the bound platform
identity. -/
theorem c7_bound_token_redeems (env : Env) (now : PyDatetime) (db : Db) (tid : String)
    (un fn ln : Option String)
    (htid : tid ≠ "")
    (huuid : env.uuid4 ≠ "")
    (hnocol : ∀ r ∈ db.auth_tokens, r.token_hash ≠ hash_token env env.uuid4)
    (hsec : env.jwt_secret ≠ "")
    (hlen : ¬(env.jwt_secret.length < 32))
    (hur : env.urandom 48 ≠ []) :
    ∃ a rt u db2,
      auth_handler env now (save_auth_token env now db tid un fn ln).2 "POST" "callback"
          { token := some (save_auth_token env now db tid un fn ln).1, refresh_token := none } =
        (cors_response 200 [("access_token", JVal.str a), ("refresh_token", JVal.str rt),
                            ("expires_in", JVal.int 900), ("user", JVal.user u)], db2) ∧
      0 < a.length ∧ 0 < rt.length ∧ u.telegram_id = some tid := by
  have hsave1 : (save_auth_token env now db tid un fn ln).1 = env.uuid4 := rfl
  have hsave2 : (save_auth_token env now db tid un fn ln).2.auth_tokens =
      db.auth_tokens ++ [webAuthRow env now tid un fn ln] := rfl
  have ht : truthy (some env.uuid4) = true := by
    simp [truthy, huuid]
  have hmem : webAuthRow env now tid un fn ln ∈
      (save_auth_token env now db tid un fn ln).2.auth_tokens := by
    rw [hsave2]
    exact List.mem_append_right _ (List.mem_singleton.mpr rfl)
  have huniq : ∀ r ∈ (save_auth_token env now db tid un fn ln).2.auth_tokens,
      r.token_hash = hash_token env env.uuid4 → r = webAuthRow env now tid un fn ln := by
    rw [hsave2]
    intro r hr hh
    rcases List.mem_append.mp hr with h | h
    · exact absurd hh (hnocol r h)
    · exact List.mem_singleton.mp h
  have hexp : ¬((webAuthRow env now tid un fn ln).expires_at.epoch < now.epoch) := by
    show ¬(now.epoch + 300 < now.epoch)
    omega
  have hbound : truthy (some tid) = true := by simp [truthy, htid]
  have h200 := auth_callback_success env now (save_auth_token env now db tid un fn ln).2
    env.uuid4 (webAuthRow env now tid un fn ln) ht hmem rfl huniq hexp rfl hbound hsec hlen
  simp only [] at h200
  rw [hsave1]
  refine ⟨_, _, _, _, h200, ?_, ?_, ?_⟩
  · exact create_jwt_length_pos env now _ env.jwt_secret 900
  · exact generate_token_length_pos env 48 hur
  · exact create_or_update_user_telegram_id env now _ tid un fn ln none

/-- C7 witness: the amended theorem at a concrete bot-created token redeemed
immediately against an empty store. -/
theorem c7_bound_token_redeems_witness :
    ∃ a rt u db2,
      auth_handler (demoEnv goodSecret) tNow
          (save_auth_token (demoEnv goodSecret) tNow emptyDb "555" (some "alice") (some "Alice") none).2
          "POST" "callback"
          { token := some (save_auth_token (demoEnv goodSecret) tNow emptyDb "555"
              (some "alice") (some "Alice") none).1, refresh_token := none } =
        (cors_response 200 [("access_token", JVal.str a), ("refresh_token", JVal.str rt),
                            ("expires_in", JVal.int 900), ("user", JVal.user u)], db2) ∧
      0 < a.length ∧ 0 < rt.length ∧ u.telegram_id = some "555" :=
  c7_bound_token_redeems (demoEnv goodSecret) tNow emptyDb "555" (some "alice") (some "Alice") none
    (by decide) (by decide) (by decide) (by decide) (by decide) (by decide)

/-- C3 counterexample: refresh with a live token whose owning user row is
gone answers 401 with body error "User not found", while refresh with a
token that never existed answers 401 with body error "Invalid or expired
refresh token": the two failure bodies differ, so the caller can
distinguish them, contrary to the claim of one uniform Invalid outcome. -/
theorem c3_counterexample :
    handle_refresh (demoEnv goodSecret) tNow orphanRefreshDb (some "rt") =
      Except.ok (cors_response 401 [("error", JVal.str "User not found")], orphanRefreshDb) ∧
    handle_refresh (demoEnv goodSecret) tNow emptyDb (some "rt") =
      Except.ok (cors_response 401 [("error", JVal.str "Invalid or expired refresh token")], emptyDb) ∧
    ¬([("error", JVal.str "User not found")] =
      ([("error", JVal.str "Invalid or expired refresh token")] : List (String × JVal))) :=
  ⟨rfl, rfl, by decide⟩

/-- C3 amended: the three token-level failures (never existed, expired,
revoked-and-deleted) are one uniform outcome: 401 with body error "Invalid
or expired refresh token" whenever no live matching row exists; the fourth
case (live row, owning user record gone) also answers 401 but with the
distinguishable body error "User not found". -/
theorem c3_refresh_failure_modes (env : Env) (now : PyDatetime) (db : Db) (rt : String)
    (htr : truthy (some rt) = true)
    (hsec : env.jwt_secret ≠ "") :
    ((∀ r ∈ db.refresh_tokens, r.token_hash = hash_token env rt →
        r.expires_at.epoch ≤ now.epoch) →
      handle_refresh env now db (some rt) =
        Except.ok (cors_response 401 [("error", JVal.str "Invalid or expired refresh token")], db)) ∧
    (∀ TR, find_refresh_token now db (hash_token env rt) = some TR →
      get_user_by_id db TR.user_id = none →
      handle_refresh env now db (some rt) =
        Except.ok (cors_response 401 [("error", JVal.str "User not found")], db)) := by
  have hbeq : (env.jwt_secret == "") = false := beq_eq_false_iff_ne.mpr hsec
  constructor
  · intro hdead
    have hnone : find_refresh_token now db (hash_token env rt) = none := by
      unfold find_refresh_token
      rw [List.find?_eq_none]
      intro r hr hpr
      simp only [Bool.and_eq_true, beq_iff_eq, decide_eq_true_eq] at hpr
      have := hdead r hr hpr.1
      omega
    simp [handle_refresh, htr, get_env, hbeq, hnone]
  · intro TR hfound huser
    simp [handle_refresh, htr, get_env, hbeq, hfound, huser]

/-- C3 witness: the amended theorem at a concrete store with a live orphan
refresh token. -/
theorem c3_refresh_failure_modes_witness :
    handle_refresh (demoEnv goodSecret) tNow orphanRefreshDb (some "rt") =
      Except.ok (cors_response 401 [("error", JVal.str "User not found")], orphanRefreshDb) :=
  (c3_refresh_failure_modes (demoEnv goodSecret) tNow orphanRefreshDb "rt"
    (by decide) (by decide)).2 demoRefreshRow (by decide) (by decide)

/-- C5 counterexample: with the five-character signing secret "short" the
refresh action still returns 200 and mints an access token, instead of the
claimed 500 server configuration error with no token minted. -/
theorem c5_counterexample :
    "short".length < 32 ∧
    handle_refresh (demoEnv "short") tNow liveRefreshDb (some "rt") =
      Except.ok (cors_response 200
        [("access_token", JVal.str (create_jwt (demoEnv "short") tNow 7 "short")),
         ("expires_in", JVal.int 900),
         ("user", JVal.user (userOut demoUser))], liveRefreshDb) :=
  ⟨by decide, rfl⟩

/-- C5 amended: only the callback redemption path validates the signing
secret length: with a non-empty secret shorter than 32 characters it
returns 500 Server configuration error, leaves the store untouched and
mints nothing; the refresh path performs no length validation and mints an
access token with the same short secret. -/
theorem c5_secret_length_validation (env : Env) (now : PyDatetime) (db : Db) (t rt : String)
    (R : AuthTokenRow) (TR : RefreshTokenRow) (u : UserRow)
    (hexp : ¬(R.expires_at.epoch < now.epoch))
    (hused : R.used = false)
    (hbound : truthy R.telegram_id = true)
    (htr : truthy (some rt) = true)
    (hsec : env.jwt_secret ≠ "")
    (hshort : env.jwt_secret.length < 32) :
    callback_after_read env now t R db =
      Except.ok (cors_response 500 [("error", JVal.str "Server configuration error")], db) ∧
    (find_refresh_token now db (hash_token env rt) = some TR →
     get_user_by_id db TR.user_id = some u →
     handle_refresh env now db (some rt) =
       Except.ok (cors_response 200
         [("access_token", JVal.str (create_jwt env now u.id env.jwt_secret)),
          ("expires_in", JVal.int 900),
          ("user", JVal.user (userOut u))], db)) := by
  have hbeq : (env.jwt_secret == "") = false := beq_eq_false_iff_ne.mpr hsec
  constructor
  · simp only [callback_after_read, get_env, normalized_epoch, hbeq, hused, hbound,
      Bool.not_true, Bool.false_eq_true, if_false, if_neg hexp, if_pos hshort]
  · intro hfound huser
    simp [handle_refresh, htr, get_env, hbeq, hfound, huser]

/-- C5 witness: the amended theorem at a concrete store, with the short
secret "short": the callback path answers 500 while the refresh path mints. -/
theorem c5_secret_length_validation_witness :
    callback_after_read (demoEnv "short") tNow "tok" demoTokenRow liveRefreshDb =
      Except.ok (cors_response 500 [("error", JVal.str "Server configuration error")], liveRefreshDb) ∧
    handle_refresh (demoEnv "short") tNow liveRefreshDb (some "rt") =
      Except.ok (cors_response 200
        [("access_token", JVal.str (create_jwt (demoEnv "short") tNow demoUser.id "short")),
         ("expires_in", JVal.int 900),
         ("user", JVal.user (userOut demoUser))], liveRefreshDb) :=
  let h := c5_secret_length_validation (demoEnv "short") tNow liveRefreshDb "tok" "rt"
    demoTokenRow demoRefreshRow demoUser (by decide) (by decide) (by decide) (by decide)
    (by decide) (by decide)
  ⟨h.1, h.2 (by decide) (by decide)⟩

theorem handle_send_error_shape (env : Env) (outcome : GatewayResult)
    (textField chatField : Option String) :
    (handle_send env outcome textField chatField).statusCode = 200 ∨
    ∃ s, (handle_send env outcome textField chatField).body.lookup "error" = some (JVal.str s) := by
  simp only [handle_send]
  repeat' split
  all_goals first
    | exact Or.inl rfl
    | exact Or.inr ⟨_, rfl⟩

theorem handle_send_photo_error_shape (env : Env) (outcome : GatewayResult)
    (photoField chatField : Option String) :
    (handle_send_photo env outcome photoField chatField).statusCode = 200 ∨
    ∃ s, (handle_send_photo env outcome photoField chatField).body.lookup "error" = some (JVal.str s) := by
  simp only [handle_send_photo]
  repeat' split
  all_goals first
    | exact Or.inl rfl
    | exact Or.inr ⟨_, rfl⟩

/-- C4 counterexample: when the gateway call raises an unexpected exception,
handle_send returns its raw str(e) text verbatim as the error field of the
500 body, contrary to the claim that raw exception text is never returned. -/
theorem c4_counterexample :
    handle_send (demoEnv goodSecret)
        (GatewayResult.exn "psycopg2.OperationalError: connection refused at 10.0.0.5")
        (some "hello") (some "42") =
      cors_response 500
        [("error", JVal.str "psycopg2.OperationalError: connection refused at 10.0.0.5")] := by
  rfl

theorem handle_test_error_shape (env : Env) (outcome : GatewayResult)
    (chatField : Option String) :
    (handle_test env outcome chatField).statusCode = 200 ∨
    ∃ s, (handle_test env outcome chatField).body.lookup "error" = some (JVal.str s) := by
  simp only [handle_test]
  repeat' split
  all_goals first
    | exact Or.inl rfl
    | exact Or.inr ⟨_, rfl⟩

theorem handle_callback_shape (env : Env) (now : PyDatetime) (db : Db)
    (tokenField : Option String) :
    (∃ e, handle_callback env now db tokenField = Except.error e) ∨
    ∃ r db2, handle_callback env now db tokenField = Except.ok (r, db2) ∧
      (r.statusCode = 200 ∨ ∃ s, r.body.lookup "error" = some (JVal.str s)) := by
  simp only [handle_callback, callback_after_read, get_env]
  repeat' split
  all_goals first
    | exact Or.inl ⟨_, rfl⟩
    | exact Or.inr ⟨_, _, rfl, Or.inl rfl⟩
    | exact Or.inr ⟨_, _, rfl, Or.inr ⟨_, rfl⟩⟩

theorem handle_refresh_shape (env : Env) (now : PyDatetime) (db : Db)
    (refreshField : Option String) :
    (∃ e, handle_refresh env now db refreshField = Except.error e) ∨
    ∃ r db2, handle_refresh env now db refreshField = Except.ok (r, db2) ∧
      (r.statusCode = 200 ∨ ∃ s, r.body.lookup "error" = some (JVal.str s)) := by
  simp only [handle_refresh, get_env]
  repeat' split
  all_goals first
    | exact Or.inl ⟨_, rfl⟩
    | exact Or.inr ⟨_, _, rfl, Or.inl rfl⟩
    | exact Or.inr ⟨_, _, rfl, Or.inr ⟨_, rfl⟩⟩

/-- Every response of the auth service POST surface is either a 200 or
carries a string error field (the OPTIONS preflight is not reachable with
method POST). -/
theorem auth_handler_error_shape (env : Env) (now : PyDatetime) (db : Db)
    (action : String) (body : AuthBody) :
    (auth_handler env now db "POST" action body).1.statusCode = 200 ∨
    ∃ s, (auth_handler env now db "POST" action body).1.body.lookup "error" = some (JVal.str s) := by
  have hopt : (("POST" : String) == "OPTIONS") = false := by decide
  have hpost : (("POST" : String) == "POST") = true := by decide
  simp only [auth_handler, hopt, Bool.false_eq_true, if_false, hpost, Bool.and_true]
  by_cases hcb : (action == "callback") = true
  · rw [if_pos hcb]
    rcases handle_callback_shape env now
        (cleanup_expired_refresh_tokens now (cleanup_expired_tokens now db)) body.token with
      ⟨e, heq⟩ | ⟨r, db2, heq, hshape⟩
    · rw [heq]
      exact Or.inr ⟨_, rfl⟩
    · rw [heq]
      exact hshape
  · rw [if_neg hcb]
    by_cases hrf : (action == "refresh") = true
    · rw [if_pos hrf]
      rcases handle_refresh_shape env now
          (cleanup_expired_refresh_tokens now (cleanup_expired_tokens now db)) body.refresh_token with
        ⟨e, heq⟩ | ⟨r, db2, heq, hshape⟩
      · rw [heq]
        exact Or.inr ⟨_, rfl⟩
      · rw [heq]
        exact hshape
    · rw [if_neg hrf]
      by_cases hlg : (action == "logout") = true
      · rw [if_pos hlg]
        exact Or.inl rfl
      · rw [if_neg hlg]
        exact Or.inr ⟨_, rfl⟩

/-- When the validity checks pass but the signing secret is unset, the
post-read redemption step raises the ValueError of get_env. -/
theorem callback_after_read_missing_secret (env : Env) (now : PyDatetime) (t : String)
    (R : AuthTokenRow) (db : Db)
    (hexp : ¬(R.expires_at.epoch < now.epoch))
    (hused : R.used = false)
    (hbound : truthy R.telegram_id = true)
    (hjs : env.jwt_secret = "") :
    callback_after_read env now t R db = Except.error "Missing environment variable" := by
  simp only [callback_after_read, get_env, normalized_epoch, hjs, hused, hbound,
    Bool.not_true, Bool.false_eq_true, if_false, if_neg hexp]
  rfl

/-- C4 amended: every error response of the bot notification handlers
(send, send-photo, test) and of the auth service POST surface is a JSON
object with a string error field; the auth service maps a raised
configuration error (unset signing secret, on the refresh and callback
paths alike) to the generic 500 Server configuration error body with the
transaction rolled back; but all three bot handlers map an unexpected
exception to 500 with the raw str(e) text as the error field, so internal
detail does reach the caller there. -/
theorem c4_error_response_bodies (env : Env) (outcome : GatewayResult)
    (textField chatField photoField : Option String) (m : String)
    (now : PyDatetime) (db : Db) (action : String) (body : AuthBody)
    (t : String) (R : AuthTokenRow) :
    ((handle_send env outcome textField chatField).statusCode ≠ 200 →
      ∃ s, (handle_send env outcome textField chatField).body.lookup "error" = some (JVal.str s)) ∧
    ((handle_send_photo env outcome photoField chatField).statusCode ≠ 200 →
      ∃ s, (handle_send_photo env outcome photoField chatField).body.lookup "error" = some (JVal.str s)) ∧
    ((handle_test env outcome chatField).statusCode ≠ 200 →
      ∃ s, (handle_test env outcome chatField).body.lookup "error" = some (JVal.str s)) ∧
    ((auth_handler env now db "POST" action body).1.statusCode ≠ 200 →
      ∃ s, (auth_handler env now db "POST" action body).1.body.lookup "error" = some (JVal.str s)) ∧
    (env.telegram_bot_token ≠ "" →
     pyStrip (textField.getD "") ≠ "" →
     (if truthy chatField then chatField.getD "" else env.default_chat_id) ≠ "" →
     ¬(4096 < (pyStrip (textField.getD "")).length) →
     handle_send env (GatewayResult.exn m) textField chatField =
       cors_response 500 [("error", JVal.str m)]) ∧
    (env.telegram_bot_token ≠ "" →
     pyStrip (photoField.getD "") ≠ "" →
     (if truthy chatField then chatField.getD "" else env.default_chat_id) ≠ "" →
     handle_send_photo env (GatewayResult.exn m) photoField chatField =
       cors_response 500 [("error", JVal.str m)]) ∧
    (env.telegram_bot_token ≠ "" →
     (if truthy chatField then chatField.getD "" else env.default_chat_id) ≠ "" →
     handle_test env (GatewayResult.exn m) chatField =
       cors_response 500 [("error", JVal.str m)]) ∧
    (env.jwt_secret = "" → truthy body.refresh_token = true →
      auth_handler env now db "POST" "refresh" body =
        (cors_response 500 [("error", JVal.str "Server configuration error")], db)) ∧
    (env.jwt_secret = "" → truthy (some t) = true →
     R ∈ db.auth_tokens → R.token_hash = hash_token env t →
     (∀ r ∈ db.auth_tokens, r.token_hash = hash_token env t → r = R) →
     ¬(R.expires_at.epoch < now.epoch) → R.used = false → truthy R.telegram_id = true →
      auth_handler env now db "POST" "callback" { token := some t, refresh_token := none } =
        (cors_response 500 [("error", JVal.str "Server configuration error")], db)) := by
  refine ⟨?_, ?_, ?_, ?_, ?_, ?_, ?_, ?_, ?_⟩
  · intro h
    rcases handle_send_error_shape env outcome textField chatField with h200 | hs
    · exact absurd h200 h
    · exact hs
  · intro h
    rcases handle_send_photo_error_shape env outcome photoField chatField with h200 | hs
    · exact absurd h200 h
    · exact hs
  · intro h
    rcases handle_test_error_shape env outcome chatField with h200 | hs
    · exact absurd h200 h
    · exact hs
  · intro h
    rcases auth_handler_error_shape env now db action body with h200 | hs
    · exact absurd h200 h
    · exact hs
  · intro hbot htext hchat hlong
    have h1 : ((pyStrip (textField.getD "")) == "") = false := beq_eq_false_iff_ne.mpr htext
    have h2 : ((if truthy chatField then chatField.getD "" else env.default_chat_id) == "") = false :=
      beq_eq_false_iff_ne.mpr hchat
    have h3 : (env.telegram_bot_token == "") = false := beq_eq_false_iff_ne.mpr hbot
    simp only [handle_send, h1, h2, h3, Bool.false_eq_true, if_false, if_neg hlong]
  · intro hbot hphoto hchat
    have h1 : ((pyStrip (photoField.getD "")) == "") = false := beq_eq_false_iff_ne.mpr hphoto
    have h2 : ((if truthy chatField then chatField.getD "" else env.default_chat_id) == "") = false :=
      beq_eq_false_iff_ne.mpr hchat
    have h3 : (env.telegram_bot_token == "") = false := beq_eq_false_iff_ne.mpr hbot
    simp only [handle_send_photo, h1, h2, h3, Bool.false_eq_true, if_false]
  · intro hbot hchat
    have h2 : ((if truthy chatField then chatField.getD "" else env.default_chat_id) == "") = false :=
      beq_eq_false_iff_ne.mpr hchat
    have h3 : (env.telegram_bot_token == "") = false := beq_eq_false_iff_ne.mpr hbot
    simp only [handle_test, h2, h3, Bool.false_eq_true, if_false]
  · intro hjs hrt
    rw [auth_handler_refresh]
    have herr : handle_refresh env now
        (cleanup_expired_refresh_tokens now (cleanup_expired_tokens now db)) body.refresh_token =
        Except.error "Missing environment variable" := by
      unfold handle_refresh
      rw [hrt]
      simp [get_env, hjs]
    rw [herr]
  · intro hjs ht hmem hhash huniq hexp hused hbound
    have hfind := cleaned_get_auth_token env now db t R hmem hhash huniq hexp (Or.inl hused)
    rw [auth_handler_callback]
    rw [show ({ token := some t, refresh_token := none } : AuthBody).token = some t from rfl]
    rw [handle_callback_found env now _ t R ht hfind]
    rw [callback_after_read_missing_secret env now t R _ hexp hused hbound hjs]

/-- C4 witness: the amended theorem instantiated concretely: a gateway
rejection keeps the error field shape, unexpected exceptions surface their
raw text on all three bot handlers, an unknown-action error carries the
error field, and both auth paths with an unset secret answer the generic
500 body with the store rolled back. -/
theorem c4_error_response_bodies_witness :
    (∃ s, (handle_send (demoEnv goodSecret)
        (GatewayResult.apiError 400 "Bad Request: chat not found")
        (some "hi") (some "42")).body.lookup "error" = some (JVal.str s)) ∧
    handle_send (demoEnv goodSecret) (GatewayResult.exn "boom") (some "hi") (some "42") =
      cors_response 500 [("error", JVal.str "boom")] ∧
    handle_send_photo (demoEnv goodSecret) (GatewayResult.exn "boom2")
        (some "https-img") (some "42") =
      cors_response 500 [("error", JVal.str "boom2")] ∧
    handle_test (demoEnv goodSecret) (GatewayResult.exn "boom3") (some "42") =
      cors_response 500 [("error", JVal.str "boom3")] ∧
    (∃ s, (auth_handler (demoEnv goodSecret) tNow emptyDb "POST" "bogus"
        { token := none, refresh_token := none }).1.body.lookup "error" = some (JVal.str s)) ∧
    auth_handler (demoEnv "") tNow emptyDb "POST" "refresh"
        { token := none, refresh_token := some "rt" } =
      (cors_response 500 [("error", JVal.str "Server configuration error")], emptyDb) ∧
    auth_handler (demoEnv "") tNow demoDb "POST" "callback"
        { token := some "tok", refresh_token := none } =
      (cors_response 500 [("error", JVal.str "Server configuration error")], demoDb) :=
  let h1 := c4_error_response_bodies (demoEnv goodSecret)
    (GatewayResult.apiError 400 "Bad Request: chat not found")
    (some "hi") (some "42") (some "https-img") "boom" tNow emptyDb "bogus"
    { token := none, refresh_token := none } "tok" demoTokenRow
  let h2 := c4_error_response_bodies (demoEnv goodSecret)
    (GatewayResult.exn "boom2") (some "hi") (some "42") (some "https-img") "boom2"
    tNow emptyDb "bogus" { token := none, refresh_token := none } "tok" demoTokenRow
  let h3 := c4_error_response_bodies (demoEnv goodSecret)
    (GatewayResult.exn "boom3") (some "hi") (some "42") (some "https-img") "boom3"
    tNow emptyDb "bogus" { token := none, refresh_token := none } "tok" demoTokenRow
  let h4 := c4_error_response_bodies (demoEnv "")
    (GatewayResult.exn "x") (some "hi") (some "42") (some "https-img") "x"
    tNow emptyDb "refresh" { token := none, refresh_token := some "rt" } "tok" demoTokenRow
  let h5 := c4_error_response_bodies (demoEnv "")
    (GatewayResult.exn "x") (some "hi") (some "42") (some "https-img") "x"
    tNow demoDb "callback" { token := some "tok", refresh_token := none } "tok" demoTokenRow
  ⟨h1.1 (by decide),
   h1.2.2.2.2.1 (by decide) (by decide) (by decide) (by decide),
   h2.2.2.2.2.2.1 (by decide) (by decide) (by decide),
   h3.2.2.2.2.2.2.1 (by decide) (by decide),
   h1.2.2.2.1 (by decide),
   h4.2.2.2.2.2.2.2.1 (by decide) (by decide),
   h5.2.2.2.2.2.2.2.2 (by decide) (by decide) (by decide) (by decide) (by decide)
     (by decide) (by decide) (by decide)⟩

/-- C8: a successful redemption for a platform identity that already has a
user record updates the name to the computed display name (never null),
updates the avatar only when a non-null photo URL arrives (a null photo
leaves the stored avatar unchanged, so a previously set avatar is never
nulled out), refreshes last_login_at, and leaves users of other identities
untouched. -/
theorem c8_coalesce_on_update (env : Env) (now : PyDatetime) (db : Db) (tid : String)
    (un fn ln ph : Option String) (u : UserRow)
    (hmem : u ∈ db.users)
    (htid : u.telegram_id = some tid)
    (huniq : ∀ v ∈ db.users, v.telegram_id = some tid → v = u) :
    ∃ u2 db2,
      create_or_update_user env now db tid un fn ln ph = (userOut u2, db2) ∧
      u2 ∈ db2.users ∧
      (∀ v ∈ db.users, v.telegram_id ≠ some tid → v ∈ db2.users) ∧
      u2.name = some (display_name_of un fn ln tid) ∧
      (ph = none → u2.avatar_url = u.avatar_url) ∧
      (∀ p, ph = some p → u2.avatar_url = some p) ∧
      (u.avatar_url ≠ none → u2.avatar_url ≠ none) ∧
      u2.last_login_at = now ∧ u2.id = u.id ∧ u2.telegram_id = some tid := by
  have hfind : find_user_by_telegram_id db tid = some u := by
    unfold find_user_by_telegram_id
    exact find?_unique hmem (by simp [htid]) (fun b hb hpb => huniq b hb (by simpa using hpb))
  have hcond : (u.telegram_id == some tid) = true := by simp [htid]
  refine ⟨updateUserRow (display_name_of un fn ln tid) ph now tid u,
    { db with users := db.users.map (updateUserRow (display_name_of un fn ln tid) ph now tid) },
    ?_, ?_, ?_, ?_, ?_, ?_, ?_, ?_, ?_, ?_⟩
  · simp only [create_or_update_user, hfind]
  · exact List.mem_map_of_mem _ hmem
  · intro v hv hne
    have hvcond : (v.telegram_id == some tid) = false := by simp [hne]
    have hid : updateUserRow (display_name_of un fn ln tid) ph now tid v = v := by
      simp [updateUserRow, hvcond]
    have := List.mem_map_of_mem (updateUserRow (display_name_of un fn ln tid) ph now tid) hv
    rwa [hid] at this
  · simp [updateUserRow, hcond, coalesce]
  · intro hph
    simp [updateUserRow, hcond, hph, coalesce]
  · intro p hph
    simp [updateUserRow, hcond, hph, coalesce]
  · intro havatar
    cases hph : ph with
    | none => simpa [updateUserRow, hcond, hph, coalesce] using havatar
    | some p => simp [updateUserRow, hcond, hph, coalesce]
  · simp [updateUserRow, hcond]
  · simp [updateUserRow, hcond]
  · simp [updateUserRow, hcond, htid]

/-- C8 witness: the theorem at a concrete store whose user has a name and an
avatar set, redeemed again with a null photo URL: the avatar is kept. -/
theorem c8_coalesce_on_update_witness :
    ∃ u2 db2,
      create_or_update_user (demoEnv goodSecret) tNow avatarDb "888"
          (some "bob") (some "Bobby") none none = (userOut u2, db2) ∧
      u2 ∈ db2.users ∧
      (∀ v ∈ avatarDb.users, v.telegram_id ≠ some "888" → v ∈ db2.users) ∧
      u2.name = some (display_name_of (some "bob") (some "Bobby") none "888") ∧
      ((none : Option String) = none → u2.avatar_url = avatarUser.avatar_url) ∧
      (∀ p, (none : Option String) = some p → u2.avatar_url = some p) ∧
      (avatarUser.avatar_url ≠ none → u2.avatar_url ≠ none) ∧
      u2.last_login_at = tNow ∧ u2.id = avatarUser.id ∧ u2.telegram_id = some "888" :=
  c8_coalesce_on_update (demoEnv goodSecret) tNow avatarDb "888"
    (some "bob") (some "Bobby") none none avatarUser (by decide) (by decide) (by decide)

theorem mark_token_used_refresh_tokens (env : Env) (db : Db) (t : String) :
    (mark_token_used env db t).2.refresh_tokens = db.refresh_tokens := rfl

theorem mark_token_used_users (env : Env) (db : Db) (t : String) :
    (mark_token_used env db t).2.users = db.users := rfl

theorem save_refresh_token_refresh_tokens (db : Db) (uid : Nat) (h : String) (e : PyDatetime) :
    (save_refresh_token db uid h e).refresh_tokens =
      db.refresh_tokens ++ [{ user_id := uid, token_hash := h, expires_at := e }] := rfl

theorem save_refresh_token_users (db : Db) (uid : Nat) (h : String) (e : PyDatetime) :
    (save_refresh_token db uid h e).users = db.users := rfl

/-- Exhaustive outcomes of the post-read redemption step: an error response
leaving the store untouched, a propagating exception, or the success shape
that mints the session pair. -/
theorem callback_after_read_cases (env : Env) (now : PyDatetime) (t : String)
    (R : AuthTokenRow) (db : Db) :
    (∃ resp, callback_after_read env now t R db = Except.ok (resp, db) ∧ resp.statusCode ≠ 200) ∨
    (∃ e, callback_after_read env now t R db = Except.error e) ∨
    (∃ jwt_secret,
      callback_after_read env now t R db =
        (let ud := create_or_update_user env now db (R.telegram_id.getD "")
                     R.telegram_username R.telegram_first_name R.telegram_last_name
                     R.telegram_photo_url
         let rt := generate_token env 48
         Except.ok (cors_response 200
           [("access_token", JVal.str (create_jwt env now ud.1.id jwt_secret)),
            ("refresh_token", JVal.str rt),
            ("expires_in", JVal.int 900),
            ("user", JVal.user ud.1)],
          save_refresh_token (mark_token_used env ud.2 t).2 ud.1.id
            (hash_token env rt) (addSeconds now 2592000)))) := by
  simp only [callback_after_read]
  repeat' split
  all_goals first
    | exact Or.inl ⟨_, rfl, by simp [cors_response]⟩
    | exact Or.inr (Or.inl ⟨_, rfl⟩)
    | exact Or.inr (Or.inr ⟨_, rfl⟩)

/-- C9: plaintext tokens are never persisted: the webhook creation path
stores only the SHA-256 fingerprint of the plaintext it returns (and the
stored row depends on the plaintext only through its fingerprint: any
fingerprint-equal plaintext yields the identical store); the redemption
lookup answers none exactly when no stored fingerprint matches the supplied
plaintext, and any row it returns is a stored row whose fingerprint equals
that of the supplied plaintext; a successful redemption stores for the
minted refresh token only the fingerprint of the plaintext returned in the
response body. -/
theorem c9_fingerprint_at_rest (env : Env) (now : PyDatetime) (db : Db) (tid : String)
    (un fn ln : Option String) (t t2 : String) (r : AuthTokenRow)
    (hcoll : hash_token env env.uuid4 = hash_token env t2) :
    (∀ row ∈ (save_auth_token env now db tid un fn ln).2.auth_tokens,
        row ∈ db.auth_tokens ∨
        row.token_hash = hash_token env (save_auth_token env now db tid un fn ln).1) ∧
    ((save_auth_token env now db tid un fn ln).2 =
      (save_auth_token { env with uuid4 := t2 } now db tid un fn ln).2) ∧
    (get_auth_token env db t = some r → r ∈ db.auth_tokens ∧ r.token_hash = hash_token env t) ∧
    (get_auth_token env db t = none ↔ ∀ row ∈ db.auth_tokens, row.token_hash ≠ hash_token env t) ∧
    (∀ resp db2 rt2, callback_after_read env now t r db = Except.ok (resp, db2) →
       resp.statusCode = 200 →
       resp.body.lookup "refresh_token" = some (JVal.str rt2) →
       ∀ row ∈ db2.refresh_tokens,
         row ∈ db.refresh_tokens ∨ row.token_hash = hash_token env rt2) := by
  refine ⟨?_, ?_, ?_, ?_, ?_⟩
  · intro row hrow
    rw [show (save_auth_token env now db tid un fn ln).2.auth_tokens =
        db.auth_tokens ++ [webAuthRow env now tid un fn ln] from rfl] at hrow
    rcases List.mem_append.mp hrow with h | h
    · exact Or.inl h
    · right
      rw [List.mem_singleton.mp h]
      rfl
  · have hc2 : env.sha256hex env.uuid4 = env.sha256hex t2 := hcoll
    simp only [save_auth_token]
    rw [hc2]
  · intro hsome
    unfold get_auth_token at hsome
    refine ⟨List.mem_of_find?_eq_some hsome, ?_⟩
    have := List.find?_some hsome
    simpa using this
  · unfold get_auth_token
    rw [List.find?_eq_none]
    constructor
    · intro h row hrow
      simpa using h row hrow
    · intro h row hrow
      simpa using h row hrow
  · intro resp db2 rt2 hok h200 hlook row hrow
    rcases callback_after_read_cases env now t r db with ⟨resp1, heq, hne⟩ | ⟨e, heq⟩ | ⟨js, heq⟩
    · rw [heq] at hok
      simp only [Except.ok.injEq, Prod.mk.injEq] at hok
      obtain ⟨h1, _⟩ := hok
      subst h1
      exact absurd h200 hne
    · rw [heq] at hok
      simp at hok
    · rw [heq] at hok
      simp only [Except.ok.injEq, Prod.mk.injEq] at hok
      obtain ⟨h1, h2⟩ := hok
      subst h1
      subst h2
      have hx1 : (("refresh_token" : String) == "access_token") = false := by decide
      have hx2 : (("refresh_token" : String) == "refresh_token") = true := by decide
      simp only [cors_response, List.lookup, hx1, hx2, Option.some.injEq, JVal.str.injEq] at hlook
      subst hlook
      rw [save_refresh_token_refresh_tokens, mark_token_used_refresh_tokens,
        create_or_update_user_refresh_tokens] at hrow
      rcases List.mem_append.mp hrow with h | h
      · exact Or.inl h
      · right
        rw [List.mem_singleton.mp h]

/-- C9 witness: the theorem at a concrete store: the freshly inserted row
matches only the fingerprint of the returned plaintext, and the lookup for
a stored plaintext returns the stored row with the matching fingerprint. -/
theorem c9_fingerprint_at_rest_witness :
    (webAuthRow (demoEnv goodSecret) tNow "555" none none none ∈ emptyDb.auth_tokens ∨
     (webAuthRow (demoEnv goodSecret) tNow "555" none none none).token_hash =
       hash_token (demoEnv goodSecret)
         (save_auth_token (demoEnv goodSecret) tNow emptyDb "555" none none none).1) ∧
    (demoTokenRow ∈ demoDb.auth_tokens ∧
     demoTokenRow.token_hash = hash_token (demoEnv goodSecret) "tok") :=
  let h1 := c9_fingerprint_at_rest (demoEnv goodSecret) tNow emptyDb "555" none none none
    "tok" (demoEnv goodSecret).uuid4 demoTokenRow rfl
  let h2 := c9_fingerprint_at_rest (demoEnv goodSecret) tNow demoDb "555" none none none
    "tok" (demoEnv goodSecret).uuid4 demoTokenRow rfl
  ⟨h1.1 (webAuthRow (demoEnv goodSecret) tNow "555" none none none) (by decide),
   h2.2.2.1 (by decide)⟩

theorem map_avatar_update (dn : String) (now : PyDatetime) (tid : String) :
    ∀ l : List UserRow,
      (l.map (updateUserRow dn none now tid)).map (fun u => u.avatar_url) =
        l.map (fun u => u.avatar_url)
  | [] => rfl
  | x :: xs => by
      simp only [List.map_cons, map_avatar_update dn now tid xs, updateUserRow_avatar_none]

/-- The avatar columns are untouched or extended by a null entry when
create_or_update_user runs with a null photo URL. -/
theorem create_or_update_avatar_map (env : Env) (now : PyDatetime) (db : Db) (tid : String)
    (un fn ln : Option String) :
    (create_or_update_user env now db tid un fn ln none).2.users.map (fun u => u.avatar_url) =
      db.users.map (fun u => u.avatar_url) ∨
    (create_or_update_user env now db tid un fn ln none).2.users.map (fun u => u.avatar_url) =
      db.users.map (fun u => u.avatar_url) ++ [none] := by
  unfold create_or_update_user
  cases hfind : find_user_by_telegram_id db tid with
  | some existing =>
    left
    exact map_avatar_update (display_name_of un fn ln tid) now tid db.users
  | none =>
    right
    simp [List.map_append]

/-- C10: every auth token created through the Telegram webhook path stores a
null photo URL, and redeeming any token whose stored photo URL is null never
changes any stored avatar: the avatar column of every pre-existing user is
unchanged and a newly created user (if any) gets a null avatar. -/
theorem c10_webhook_tokens_null_photo (env : Env) (now : PyDatetime) (db : Db)
    (tgu : TgUser) (t : String) (token_data : AuthTokenRow) :
    (∀ r ∈ (handle_web_auth env now db tgu).2.auth_tokens,
       r ∈ db.auth_tokens ∨ r.telegram_photo_url = none) ∧
    (token_data.telegram_photo_url = none →
     ∀ resp db2, callback_after_read env now t token_data db = Except.ok (resp, db2) →
       db2.users.map (fun u => u.avatar_url) = db.users.map (fun u => u.avatar_url) ∨
       db2.users.map (fun u => u.avatar_url) = db.users.map (fun u => u.avatar_url) ++ [none]) := by
  constructor
  · intro r hr
    rw [show (handle_web_auth env now db tgu).2.auth_tokens =
        db.auth_tokens ++ [webAuthRow env now
          (match tgu.id with | some n => toString n | none => "")
          tgu.username tgu.first_name tgu.last_name] from rfl] at hr
    rcases List.mem_append.mp hr with h | h
    · exact Or.inl h
    · right
      rw [List.mem_singleton.mp h]
      rfl
  · intro hphoto resp db2 hok
    rcases callback_after_read_cases env now t token_data db with ⟨resp1, heq, _⟩ | ⟨e, heq⟩ | ⟨js, heq⟩
    · rw [heq] at hok
      simp only [Except.ok.injEq, Prod.mk.injEq] at hok
      obtain ⟨_, h2⟩ := hok
      subst h2
      exact Or.inl rfl
    · rw [heq] at hok
      simp at hok
    · rw [heq] at hok
      simp only [Except.ok.injEq, Prod.mk.injEq] at hok
      obtain ⟨_, h2⟩ := hok
      subst h2
      have husers : (save_refresh_token
          (mark_token_used env (create_or_update_user env now db (token_data.telegram_id.getD "")
            token_data.telegram_username token_data.telegram_first_name
            token_data.telegram_last_name token_data.telegram_photo_url).2 t).2
          (create_or_update_user env now db (token_data.telegram_id.getD "")
            token_data.telegram_username token_data.telegram_first_name
            token_data.telegram_last_name token_data.telegram_photo_url).1.id
          (hash_token env (generate_token env 48)) (addSeconds now 2592000)).users =
          (create_or_update_user env now db (token_data.telegram_id.getD "")
            token_data.telegram_username token_data.telegram_first_name
            token_data.telegram_last_name token_data.telegram_photo_url).2.users := rfl

      rw [husers, hphoto]
      exact create_or_update_avatar_map env now db (token_data.telegram_id.getD "")
        token_data.telegram_username token_data.telegram_first_name token_data.telegram_last_name

/-- C10 witness: the theorem at a concrete webhook-created token and at a
concrete redemption against a store whose user already has an avatar. -/
theorem c10_webhook_tokens_null_photo_witness :
    (webAuthRow (demoEnv goodSecret) tNow "9001" none (some "Carol") none ∈ emptyDb.auth_tokens ∨
     (webAuthRow (demoEnv goodSecret) tNow "9001" none (some "Carol") none).telegram_photo_url = none) ∧
    (c10Result.2.users.map (fun u => u.avatar_url) =
       avatarDb.users.map (fun u => u.avatar_url) ∨
     c10Result.2.users.map (fun u => u.avatar_url) =
       avatarDb.users.map (fun u => u.avatar_url) ++ [none]) :=
  let h := c10_webhook_tokens_null_photo (demoEnv goodSecret) tNow avatarDb
    { id := some 9001, username := none, first_name := some "Carol", last_name := none }
    "tok2" c10Row
  ⟨h.1 (webAuthRow (demoEnv goodSecret) tNow "9001" none (some "Carol") none) (by decide),
   h.2 (by decide) c10Result.1 c10Result.2 rfl⟩

end TgAuth
